import Mathlib

/-!
Verification development for the adversarial-spec orchestration engine.

The Python sources embedded here are:
* `scripts/session.py` — session persistence, listing and per-round checkpoints;
* `scripts/models.py` — retry, parsing, parallel dispatch and cost accounting
  (this module is exercised by `tests/test_model_calls.py`; its definitions
  below are modelled from the specification document and those tests);
* `scripts/telegram_bot.py` — the notification side channel's polling loop.

Strings are Lean `String`s; marker and path scanning is implemented
structurally over `String.data` (`List Char`) so that every definition is
executable and kernel-reducible.  The filesystem is modelled as an
association list from resolved path components to file contents, and
`pathlib.Path.resolve` is modelled as lexical normalisation of `..` / `.`
components (symlinks are out of scope).
-/

/-! ### Path model shared by `session.py` functions -/

/-- Split a list of characters at every occurrence of the separator
character, mirroring how `pathlib` splits a path string on `/`. -/
def splitChar (sep : Char) : List Char → List (List Char)
  | [] => [[]]
  | c :: rest =>
    if c = sep then [] :: splitChar sep rest
    else
      match splitChar sep rest with
      | h :: t => (c :: h) :: t
      | [] => [[c]]

/-- Path components of a string, splitting on the `/` separator. -/
def pathComponents (s : String) : List String :=
  (splitChar '/' s.data).map (fun cs => String.mk cs)

/-- True when the path string is absolute (starts with `/`). -/
def isAbsolutePath (s : String) : Bool :=
  match s.data with
  | c :: _ => c = '/'
  | [] => false

/-- One step of lexical path normalisation: `..` pops a component, `.` and
empty components are ignored, anything else is appended.  This models what
`Path.resolve()` does to an identifier-derived path (symlinks aside). -/
def resolveStep (acc : List String) (c : String) : List String :=
  if c = ".." then acc.dropLast
  else if c = "." then acc
  else if c = "" then acc
  else acc ++ [c]

/-- Join a relative path string onto a root directory (given as resolved
components) and normalise, modelling `(root / rel).resolve()`.  An absolute
`rel` replaces the root, as with `pathlib`'s `/` operator. -/
def joinResolve (root : List String) (rel : String) : List String :=
  (pathComponents rel).foldl resolveStep (if isAbsolutePath rel then [] else root)

/-- Resolved components of `SESSIONS_DIR = Path.home() / ".config" /
"adversarial-spec" / "sessions"`.  The concrete home directory is irrelevant;
only its component structure matters. -/
def SESSIONS_ROOT : List String :=
  ["home", "user", ".config", "adversarial-spec", "sessions"]

/-- Resolved components of `CHECKPOINTS_DIR = Path.cwd() /
".adversarial-spec-checkpoints"`. -/
def CHECKPOINTS_ROOT : List String :=
  ["cwd", ".adversarial-spec-checkpoints"]

/-- Resolved path of `SESSIONS_DIR / f"<session_id>.json"`. -/
def sessionPath (sid : String) : List String :=
  joinResolve SESSIONS_ROOT (sid ++ ".json")

/-- The containment check `path.resolve().is_relative_to(SESSIONS_DIR.resolve())`
performed by `SessionState.save` and `SessionState.load`. -/
def validSessionId (sid : String) : Bool :=
  SESSIONS_ROOT.isPrefixOf (sessionPath sid)

/-- Checkpoint file name `f"<session_id>-round-<n>.md"` (the `<session_id>-`
piece is omitted when no session id is given), exactly as built by
`save_checkpoint`. -/
def checkpointFileName (sid : Option String) (n : Nat) : String :=
  (match sid with
   | some s => s ++ "-"
   | none => "") ++ "round-" ++ Nat.repr n ++ ".md"

/-- Resolved path of `CHECKPOINTS_DIR / checkpointFileName`. -/
def checkpointPath (sid : Option String) (n : Nat) : List String :=
  joinResolve CHECKPOINTS_ROOT (checkpointFileName sid n)

/-- The containment check performed by `save_checkpoint`. -/
def validCheckpointId (sid : Option String) (n : Nat) : Bool :=
  CHECKPOINTS_ROOT.isPrefixOf (checkpointPath sid n)

/-! ### I/O-event traces of `session.py` (for the validation-ordering claim)

Each function is rendered as the ordered list of filesystem side effects it
performs, together with `true` for a normal return and `false` for a raised
exception.  The event order transcribes the statement order of the source. -/

/-- A filesystem side effect performed by `session.py`. -/
inductive FsEvent where
  | mkdirSessionsRoot
  | mkdirCheckpointsRoot
  | writeFile (p : List String)
  | readFile (p : List String)
deriving DecidableEq

/-- Ordered I/O trace of `SessionState.save`: the source runs
`SESSIONS_DIR.mkdir(parents=True, exist_ok=True)` first, then validates the
identifier-derived path, then writes the session file. -/
def saveTrace (sid : String) : List FsEvent × Bool :=
  if validSessionId sid then
    ([FsEvent.mkdirSessionsRoot, FsEvent.writeFile (sessionPath sid)], true)
  else
    ([FsEvent.mkdirSessionsRoot], false)

/-- Ordered I/O trace of `SessionState.load`: the source validates the path
before any filesystem access, then reads the session file. -/
def loadTrace (sid : String) : List FsEvent × Bool :=
  if validSessionId sid then
    ([FsEvent.readFile (sessionPath sid)], true)
  else
    ([], false)

/-- Ordered I/O trace of `save_checkpoint`: the source runs
`CHECKPOINTS_DIR.mkdir(parents=True, exist_ok=True)` first, then validates
the derived path, then writes the checkpoint file. -/
def checkpointTrace (sid : Option String) (n : Nat) : List FsEvent × Bool :=
  if validCheckpointId sid n then
    ([FsEvent.mkdirCheckpointsRoot, FsEvent.writeFile (checkpointPath sid n)], true)
  else
    ([FsEvent.mkdirCheckpointsRoot], false)

/-! ### `SessionState` and its JSON round trip -/

/-- The `SessionState` dataclass of `session.py`.  `history` holds round
summaries whose internal structure the store never inspects; its entries are
modelled as opaque payloads. -/
structure SessionState where
  session_id : String
  spec : String
  round : Int
  doc_type : String
  models : List String
  focus : Option String
  persona : Option String
  preserve_intent : Bool
  created_at : String
  updated_at : String
  history : List String
deriving DecidableEq

/-- Constructing a `SessionState` giving only the five required dataclass
fields; the remaining fields take the dataclass defaults
(`None`, `None`, `False`, `""`, `""`, `[]`). -/
def SessionState.make (session_id spec : String) (round : Int) (doc_type : String)
    (models : List String) : SessionState :=
  ⟨session_id, spec, round, doc_type, models, none, none, false, "", "", []⟩

/-- A stored session JSON document: each dataclass field is either present
with a value or absent.  `json.dumps(asdict(self))` always writes every
field, but a document edited or produced elsewhere may omit the optional
ones, and `cls(**data)` then falls back to the dataclass defaults. -/
structure StoredSession where
  session_id : String
  spec : String
  round : Int
  doc_type : String
  models : List String
  focus : Option (Option String)
  persona : Option (Option String)
  preserve_intent : Option Bool
  created_at : Option String
  updated_at : Option String
  history : Option (List String)
deriving DecidableEq

/-- `json.dumps(asdict(self))`: every field is written. -/
def encodeSession (s : SessionState) : StoredSession :=
  ⟨s.session_id, s.spec, s.round, s.doc_type, s.models, some s.focus,
   some s.persona, some s.preserve_intent, some s.created_at, some s.updated_at,
   some s.history⟩

/-- `cls(**data)`: absent optional fields take the dataclass defaults. -/
def decodeSession (j : StoredSession) : SessionState :=
  ⟨j.session_id, j.spec, j.round, j.doc_type, j.models, j.focus.getD none,
   j.persona.getD none, j.preserve_intent.getD false, j.created_at.getD "",
   j.updated_at.getD "", j.history.getD []⟩

/-- The sessions directory: a map from resolved path to stored document. -/
abbrev SessionDir : Type := List (List String × StoredSession)

/-- `path.write_text(...)` on the sessions directory: last write wins. -/
def writeDoc (fs : SessionDir) (p : List String) (d : StoredSession) : SessionDir :=
  (p, d) :: List.filter (fun e => decide (e.1 ≠ p)) fs

/-- `path.read_text()` on the sessions directory. -/
def readDoc (fs : SessionDir) (p : List String) : Option StoredSession :=
  (List.find? (fun e => decide (e.1 = p)) fs).map (fun e => e.2)

/-- `SessionState.save`: stamp `updated_at` with the current time, validate
the identifier-derived path, then write the encoded state.  Returns the
mutated state (the source mutates `self`) and the updated directory, or the
`ValueError` message for an identifier escaping the root. -/
def SessionState.save (s : SessionState) (now : String) (fs : SessionDir) :
    Except String (SessionState × SessionDir) :=
  let s' : SessionState := { s with updated_at := now }
  if validSessionId s.session_id then
    Except.ok (s', writeDoc fs (sessionPath s.session_id) (encodeSession s'))
  else
    Except.error ("Invalid session ID: " ++ s.session_id)

/-- `SessionState.load`: validate the identifier-derived path, then read and
decode the stored document; a missing file is the `FileNotFoundError` case. -/
def SessionState.load (sid : String) (fs : SessionDir) : Except String SessionState :=
  if validSessionId sid then
    match readDoc fs (sessionPath sid) with
    | some j => Except.ok (decodeSession j)
    | none => Except.error ("Session not found: " ++ sid)
  else
    Except.error ("Invalid session ID: " ++ sid)

/-! ### `save_checkpoint` over a checkpoint store -/

/-- The checkpoints directory: a map from resolved path to file text. -/
abbrev CheckpointDir : Type := List (List String × String)

/-- `path.write_text(spec)` on the checkpoints directory: last write wins. -/
def writeText (fs : CheckpointDir) (p : List String) (content : String) : CheckpointDir :=
  (p, content) :: List.filter (fun e => decide (e.1 ≠ p)) fs

/-- `path.read_text()` on the checkpoints directory. -/
def readText (fs : CheckpointDir) (p : List String) : Option String :=
  (List.find? (fun e => decide (e.1 = p)) fs).map (fun e => e.2)

/-- `save_checkpoint(spec, round_num, session_id)`: derive the checkpoint
file name, validate it against the checkpoints root, then write the spec
text verbatim. -/
def save_checkpoint (fs : CheckpointDir) (spec : String) (n : Nat)
    (sid : Option String) : Except String CheckpointDir :=
  if validCheckpointId sid n then
    Except.ok (writeText fs (checkpointPath sid n) spec)
  else
    Except.error "Invalid session ID"

/-! ### Reply parsing (component 4.3)

The parsing module lives in `scripts/models.py`, which is exercised by
`tests/test_model_calls.py`.  Marker scanning is implemented structurally
over `List Char`. -/

/-- Split a character list at the first occurrence of `sep`, returning the
text before and after it, or `none` when `sep` does not occur. -/
def splitFirst (sep : List Char) : List Char → Option (List Char × List Char)
  | [] => none
  | c :: rest =>
    if sep.isPrefixOf (c :: rest) then some ([], (c :: rest).drop sep.length)
    else
      match splitFirst sep rest with
      | some (pre, post) => some (c :: pre, post)
      | none => none

/-- True when `marker` occurs somewhere in `raw` (the Python `in` test). -/
def containsMarker (raw marker : List Char) : Bool :=
  (splitFirst marker raw).isSome

/-- The text strictly between the first occurrence of `o` and the first
following occurrence of `c`; empty when either marker is missing. -/
def extractBetween (raw o c : List Char) : List Char :=
  match splitFirst o raw with
  | none => []
  | some (_, afterOpen) =>
    match splitFirst c afterOpen with
    | none => []
    | some (mid, _) => mid

/-- Whitespace for the purposes of Python's `str.strip()` on the replies in
scope (space, newline, tab, carriage return). -/
def isStripChar (c : Char) : Bool :=
  c = ' ' ∨ c = '\n' ∨ c = '\t' ∨ c = '\r'

/-- Python `str.strip()`: drop leading and trailing whitespace. -/
def stripChars (l : List Char) : List Char :=
  ((l.dropWhile isStripChar).reverse.dropWhile isStripChar).reverse

/-- Modelled from the spec (section 4.3 of `scripts/models.py`, absent from
the sources): `agreed` is true iff the literal token `[AGREE]` appears
anywhere in the raw reply. -/
def parse_agreed (raw : String) : Bool :=
  containsMarker raw.data ("[AGREE]".data)

/-- Modelled from the spec (section 4.3 of `scripts/models.py`, absent from
the sources), following the spec text verbatim: the text strictly between
the first `[SPEC]` marker and the first following `[/SPEC]` marker, with no
further processing; empty when either marker is missing. -/
def extractSpecBlock (raw : String) : String :=
  String.mk (extractBetween raw.data ("[SPEC]".data) ("[/SPEC]".data))

/-- Modelled from the spec and the repository's tests (`scripts/models.py`
is absent from the sources): the revised-spec text the parser actually
returns.  `TestCallSingleModel.test_returns_model_response_on_success`
asserts `result.spec == "# Revised Spec"` for a reply whose marker-delimited
text is `"\n# Revised Spec\n"`, so the extracted block is stripped of
surrounding whitespace. -/
def parse_spec_block (raw : String) : String :=
  String.mk (stripChars (extractBetween raw.data ("[SPEC]".data) ("[/SPEC]".data)))

/-! ### Cost tracker (component 4.5, `scripts/models.py`) -/

/-- Running totals for a single backend inside the cost tracker. -/
structure ModelUsage where
  input_tokens : Nat
  output_tokens : Nat
  cost : ℚ
deriving DecidableEq

/-- Modelled from the spec (section 4.5, `scripts/models.py` absent from the
sources): process-scoped running totals plus a per-backend breakdown. -/
structure CostTracker where
  total_input_tokens : Nat
  total_output_tokens : Nat
  total_cost : ℚ
  by_model : List (String × ModelUsage)
deriving DecidableEq

/-- A freshly constructed `CostTracker()`. -/
def CostTracker.empty : CostTracker := ⟨0, 0, 0, []⟩

/-- Modelled from the spec: the static per-backend price table (USD per 1K
input / output tokens).  The concrete figures are representative; unknown
backends fall back to a price of zero rather than failing. -/
def MODEL_PRICES : List (String × ℚ × ℚ) :=
  [("gpt-4o", ((5 : ℚ) / 2, (10 : ℚ))),
   ("gemini/gemini-2.0-flash", ((1 : ℚ) / 10, (2 : ℚ) / 5))]

/-- Price lookup with the zero fallback for unknown backends. -/
def priceFor (model : String) : ℚ × ℚ :=
  match List.find? (fun e => decide (e.1 = model)) MODEL_PRICES with
  | some e => e.2
  | none => (0, 0)

/-- Cost of one call: tokens divided by 1000 times the per-1K price. -/
def usageCost (model : String) (inTok outTok : Nat) : ℚ :=
  (inTok : ℚ) / 1000 * (priceFor model).1 + (outTok : ℚ) / 1000 * (priceFor model).2

/-- Add one call's usage to a per-backend association list. -/
def bumpUsage (l : List (String × ModelUsage)) (model : String)
    (inTok outTok : Nat) (c : ℚ) : List (String × ModelUsage) :=
  match l with
  | [] => [(model, ⟨inTok, outTok, c⟩)]
  | e :: rest =>
    if e.1 = model then
      (model, ⟨e.2.input_tokens + inTok, e.2.output_tokens + outTok, e.2.cost + c⟩) :: rest
    else
      e :: bumpUsage rest model inTok outTok c

/-- Modelled from the spec: `record(backend, inputTokens, outputTokens)`
computes the cost from the price table and adds the usage to the global and
per-backend running totals. -/
def CostTracker.record (t : CostTracker) (model : String)
    (inTok outTok : Nat) : CostTracker :=
  ⟨t.total_input_tokens + inTok, t.total_output_tokens + outTok,
   t.total_cost + usageCost model inTok outTok,
   bumpUsage t.by_model model inTok outTok (usageCost model inTok outTok)⟩

/-- Per-backend running totals as reported by the tracker. -/
def CostTracker.usageOf (t : CostTracker) (model : String) : Option ModelUsage :=
  (List.find? (fun e => decide (e.1 = model)) t.by_model).map (fun e => e.2)

/-! ### Model invoker with retry (component 4.1, `scripts/models.py`) -/

/-- One successful completion as reported by the backend boundary: reply
text plus input and output token counts. -/
structure Completion where
  content : String
  prompt_tokens : Nat
  completion_tokens : Nat
deriving DecidableEq

/-- One `ModelResult` (named `ModelResponse` in the tests). -/
structure ModelResponse where
  model : String
  reply : String
  agreed : Bool
  spec : String
  input_tokens : Nat
  output_tokens : Nat
  cost : ℚ
  error : Option String
deriving DecidableEq

/-- The successful result: the raw reply passes through the parser and the
usage is reported from the backend's counts. -/
def successResponse (model : String) (c : Completion) : ModelResponse :=
  ⟨model, c.content, parse_agreed c.content, parse_spec_block c.content,
   c.prompt_tokens, c.completion_tokens,
   usageCost model c.prompt_tokens c.completion_tokens, none⟩

/-- The terminal-failure result: `error` carries the last failure's message,
`agreed=false`, empty reply fields, zero token and cost fields. -/
def errorResponse (model msg : String) : ModelResponse :=
  ⟨model, "", false, "", 0, 0, 0, some msg⟩

/-- Total attempt budget of the retry loop. -/
def MAX_ATTEMPTS : Nat := 3

/-- The bounded retry loop, modelled from the spec: attempt `i` consults the
backend oracle; a success returns immediately, a failure is retried while
fuel remains, and the last failure's message is kept.  Returns the number of
attempts actually made together with the terminal outcome. -/
def runAttempts (oracle : Nat → Except String Completion) :
    Nat → Nat → Nat × Except String Completion
  | _, 0 => (0, Except.error "")
  | i, fuel + 1 =>
    match oracle i with
    | Except.ok c => (1, Except.ok c)
    | Except.error e =>
      if fuel = 0 then (1, Except.error e)
      else
        let r := runAttempts oracle (i + 1) fuel
        (r.1 + 1, r.2)

/-- Modelled from the spec (section 4.1, `scripts/models.py` absent from the
sources): one backend invocation with up to `MAX_ATTEMPTS` attempts.  The
backend boundary is abstracted as an oracle from attempt number to outcome.
On success the parser fills the reply fields and the cost tracker records
the usage exactly once; after exhausting all attempts the error result is
returned and the tracker is untouched.  (The local-executable short-circuit
for the codex backend family is outside the claims and not modelled.)
Returns the result, the updated tracker, and the number of attempts made. -/
def call_single_model (model : String) (oracle : Nat → Except String Completion)
    (tracker : CostTracker) : ModelResponse × CostTracker × Nat :=
  let r := runAttempts oracle 0 MAX_ATTEMPTS
  match r.2 with
  | Except.ok c =>
    (successResponse model c, tracker.record model c.prompt_tokens c.completion_tokens, r.1)
  | Except.error e => (errorResponse model e, tracker, r.1)

/-- Modelled from the spec (section 4.2, `scripts/models.py` absent from the
sources): fan one round out to every requested backend and fan the results
back in, in input order; an empty backend list is caller misuse and is
rejected before any network activity.  Concurrency is modelled by its
observable contract: each backend's result is computed from that backend's
own oracle alone, and the aggregate preserves input order. -/
def call_models_parallel (models : List String)
    (oracle : String → Nat → Except String Completion) (tracker : CostTracker) :
    Except String (List ModelResponse × CostTracker) :=
  match models with
  | [] => Except.error "No models specified"
  | _ :: _ =>
    Except.ok (models.foldl
      (fun acc m =>
        let r := call_single_model m (oracle m) acc.2
        (acc.1 ++ [r.1], r.2.1))
      ([], tracker))

/-! ### Telegram polling loop (`scripts/telegram_bot.py`) -/

/-- One Telegram update as seen by `poll_for_reply`: the update id, the
stringified chat id `str(message.get("chat", ...).get("id", ""))`, and the
message text `message.get("text", "")`. -/
structure TgUpdate where
  update_id : Int
  chat_id : String
  text : String
deriving DecidableEq

/-- The inner loop of `poll_for_reply` over one batch of updates: return the
first message that comes from the configured chat and has non-empty text. -/
def firstMatch (chat : String) : List TgUpdate → Option String
  | [] => none
  | u :: rest =>
    if u.chat_id = chat ∧ u.text ≠ "" then some u.text
    else firstMatch chat rest

/-- `poll_for_reply`, driven by the finite sequence of `getUpdates` outcomes
observed before the timeout: an `Except.error` batch is a caught
`RuntimeError` (the loop sleeps and continues), an `Except.ok` batch is
scanned for a matching message.  Exhausting the sequence is the timeout,
which returns `none`. -/
def poll_for_reply (chat : String) : List (Except Unit (List TgUpdate)) → Option String
  | [] => none
  | Except.error _ :: rest => poll_for_reply chat rest
  | Except.ok us :: rest =>
    match firstMatch chat us with
    | some t => some t
    | none => poll_for_reply chat rest

/-! ### Session listing (`SessionState.list_sessions`) -/

/-- The fields `list_sessions` reads from a stored session document.
`updated_at` is optional: `data.get("updated_at", "")` supplies the empty
string when absent. -/
structure ListedDoc where
  session_id : String
  round : Int
  doc_type : String
  updated_at : Option String
deriving DecidableEq

/-- One file in the sessions directory as seen by `list_sessions`: either a
readable session document or an unreadable file (invalid JSON, or a document
missing one of the required keys — both end in the `except` clause). -/
inductive SessionFile where
  | invalid
  | valid (doc : ListedDoc)
deriving DecidableEq

/-- The summary dictionary built for one session: exactly the keys `id`,
`round`, `doc_type`, `updated_at`. -/
structure SessionSummary where
  id : String
  round : Int
  doc_type : String
  updated_at : String
deriving DecidableEq

/-- The summary of one readable document. -/
def summaryOf (d : ListedDoc) : SessionSummary :=
  ⟨d.session_id, d.round, d.doc_type, d.updated_at.getD ""⟩

/-- Reading one file inside the `try` block: an unreadable file yields
nothing (the exception is swallowed), a readable one yields its summary. -/
def readSummary : SessionFile → Option SessionSummary
  | SessionFile.invalid => none
  | SessionFile.valid d => some (summaryOf d)

/-- Lexicographic comparison of character lists by code point, which is how
Python compares the ISO-format `updated_at` strings. -/
def charListLe : List Char → List Char → Bool
  | [], _ => true
  | _ :: _, [] => false
  | a :: as, b :: bs => if a < b then true else if b < a then false else charListLe as bs

/-- The sort key comparison of
`sorted(sessions, key=lambda x: x.get("updated_at", ""), reverse=True)`:
a stable sort placing larger `updated_at` strings first. -/
def moreRecentFirst (a b : SessionSummary) : Bool :=
  charListLe b.updated_at.data a.updated_at.data

/-- `SessionState.list_sessions`: read every file in the directory, skip the
unreadable ones, and sort the summaries by most recent update first. -/
def list_sessions (files : List SessionFile) : List SessionSummary :=
  (files.filterMap readSummary).mergeSort moreRecentFirst

/-! ### Helper lemmas -/

/-- A resolved root is always a prefix of itself extended by further
components. -/
theorem isPrefixOf_append_self (root l : List String) :
    root.isPrefixOf (root ++ l) = true := by
  induction root with
  | nil => simp [List.isPrefixOf]
  | cons a as ih => simp [List.isPrefixOf, ih]

/-- Reading back the document just written returns exactly that document. -/
theorem readDoc_writeDoc (fs : SessionDir) (p : List String) (d : StoredSession) :
    readDoc (writeDoc fs p d) p = some d := by
  simp [readDoc, writeDoc, List.find?]

/-- Reading back the text just written returns exactly that text. -/
theorem readText_writeText (fs : CheckpointDir) (p : List String) (c : String) :
    readText (writeText fs p c) p = some c := by
  simp [readText, writeText, List.find?]

/-- Searching a key different from the filtered-out one is unaffected by the
filtering step of a store update. -/
theorem find?_filter_other {β : Type} (fs : List (List String × β))
    (p q : List String) (h : q ≠ p) :
    List.find? (fun e => decide (e.1 = q)) (List.filter (fun e => decide (e.1 ≠ p)) fs)
      = List.find? (fun e => decide (e.1 = q)) fs := by
  induction fs with
  | nil => rfl
  | cons e fs ih =>
    by_cases hep : e.1 = p
    · have hq : e.1 ≠ q := by rw [hep]; exact Ne.symm h
      rw [List.filter_cons_of_neg (by simpa using hep),
        List.find?_cons_of_neg _ (by simpa using hq)]
      exact ih
    · rw [List.filter_cons_of_pos (by simpa using hep)]
      by_cases heq : e.1 = q
      · rw [List.find?_cons_of_pos _ (by simpa using heq),
          List.find?_cons_of_pos _ (by simpa using heq)]
      · rw [List.find?_cons_of_neg _ (by simpa using heq),
          List.find?_cons_of_neg _ (by simpa using heq)]
        exact ih

/-- Writing at one path leaves the content stored at any other path alone. -/
theorem readText_writeText_other (fs : CheckpointDir) (p q : List String)
    (c : String) (h : q ≠ p) : readText (writeText fs p c) q = readText fs q := by
  simp only [readText, writeText]
  rw [List.find?_cons_of_neg _ (by simp [Ne.symm h]), find?_filter_other fs p q h]

/-- Numeric value of a decimal digit character. -/
def digitVal (c : Char) : Nat := c.toNat - 48

/-- Decimal value of a most-significant-first digit string. -/
def decValue (l : List Char) : Nat := l.foldl (fun a c => 10 * a + digitVal c) 0

theorem digitVal_digitChar (d : Nat) (h : d < 10) : digitVal (Nat.digitChar d) = d := by
  interval_cases d <;> rfl

theorem decValue_append_digit (l : List Char) (c : Char) :
    decValue (l ++ [c]) = 10 * decValue l + digitVal c := by
  simp [decValue, List.foldl_append]

theorem toDigitsCore_append (f : Nat) : ∀ (n : Nat) (l : List Char),
    Nat.toDigitsCore 10 f n l = Nat.toDigitsCore 10 f n [] ++ l := by
  induction f with
  | zero => intro n l; simp [Nat.toDigitsCore]
  | succ f ih =>
    intro n l
    simp only [Nat.toDigitsCore]
    by_cases h : n / 10 = 0
    · simp [h]
    · simp only [h, if_false]
      rw [ih (n / 10) (Nat.digitChar (n % 10) :: l), ih (n / 10) [Nat.digitChar (n % 10)]]
      simp

theorem decValue_toDigitsCore : ∀ (f n : Nat), n < 10 ^ f →
    decValue (Nat.toDigitsCore 10 f n []) = n := by
  intro f
  induction f with
  | zero =>
    intro n h
    have hn : n = 0 := by simpa using h
    subst hn
    rfl
  | succ f ih =>
    intro n h
    simp only [Nat.toDigitsCore]
    by_cases h0 : n / 10 = 0
    · have hn : n < 10 := by omega
      simp only [h0, if_true]
      show decValue [Nat.digitChar (n % 10)] = n
      have : decValue [Nat.digitChar (n % 10)] = digitVal (Nat.digitChar (n % 10)) := by
        simp [decValue]
      rw [this, digitVal_digitChar _ (Nat.mod_lt _ (by decide))]
      omega
    · simp only [h0, if_false]
      rw [toDigitsCore_append, decValue_append_digit]
      have hdiv : n / 10 < 10 ^ f := by
        rw [pow_succ] at h
        omega
      rw [ih _ hdiv, digitVal_digitChar _ (Nat.mod_lt _ (by decide))]
      omega

theorem decValue_repr (n : Nat) : decValue (Nat.repr n).data = n := by
  have h : n < 10 ^ (n + 1) :=
    lt_trans (Nat.lt_succ_self n) (Nat.lt_pow_self (by norm_num) (n + 1))
  exact decValue_toDigitsCore (n + 1) n h

/-- Decimal rendering of naturals is injective (at the level of character
data). -/
theorem repr_data_injective {m n : Nat}
    (h : (Nat.repr m).data = (Nat.repr n).data) : m = n := by
  have hm := decValue_repr m
  rw [h, decValue_repr n] at hm
  exact hm.symm

/-- Distinct rounds derive distinct checkpoint file names (for any fixed
optional session id). -/
theorem checkpointFileName_inj (sid : Option String) {n m : Nat} (h : n ≠ m) :
    checkpointFileName sid n ≠ checkpointFileName sid m := by
  intro he
  apply h
  apply repr_data_injective
  cases sid with
  | none =>
    have hd := congrArg String.data he
    simp only [checkpointFileName, String.data_append, List.append_assoc] at hd
    exact List.append_cancel_right (List.append_cancel_left hd)
  | some s =>
    have hd := congrArg String.data he
    simp only [checkpointFileName, String.data_append, List.append_assoc] at hd
    exact List.append_cancel_right
      (List.append_cancel_left (List.append_cancel_left (List.append_cancel_left hd)))

/-- `charListLe` is transitive. -/
theorem charListLe_trans : ∀ (a b c : List Char),
    charListLe a b = true → charListLe b c = true → charListLe a c = true
  | [], _, _, _, _ => rfl
  | _ :: _, [], _, h, _ => by simp [charListLe] at h
  | _ :: _, _ :: _, [], _, h => by simp [charListLe] at h
  | x :: xs, y :: ys, z :: zs, h1, h2 => by
    simp only [charListLe] at h1 h2 ⊢
    rcases lt_trichotomy x y with hxy | hxy | hxy
    · rcases lt_trichotomy y z with hyz | hyz | hyz
      · simp [lt_trans hxy hyz]
      · subst hyz; simp [hxy]
      · simp [lt_asymm hyz, hyz] at h2
    · subst hxy
      rcases lt_trichotomy x z with hxz | hxz | hxz
      · simp [hxz]
      · subst hxz
        simp only [lt_irrefl, if_false] at h1 h2 ⊢
        exact charListLe_trans xs ys zs h1 h2
      · simp [lt_asymm hxz, hxz] at h2
    · simp [lt_asymm hxy, hxy] at h1

/-- `charListLe` is total. -/
theorem charListLe_total : ∀ (a b : List Char),
    (charListLe a b || charListLe b a) = true
  | [], _ => by simp [charListLe]
  | _ :: _, [] => by simp [charListLe]
  | x :: xs, y :: ys => by
    simp only [charListLe]
    rcases lt_trichotomy x y with h | h | h
    · simp [h]
    · subst h
      simp only [lt_irrefl, if_false]
      exact charListLe_total xs ys
    · simp [h, lt_asymm h]

/-- Only the empty string compares at-or-below the empty string. -/
theorem charListLe_nil_right : ∀ (l : List Char), charListLe l [] = true → l = []
  | [], _ => rfl
  | _ :: _, h => by simp [charListLe] at h

/-! ### Claim theorems -/

/-- Claim C4, counterexample: the identifier `"../evil"` escapes the storage
root and is rejected, but `SessionState.save` and `save_checkpoint` have
already created the storage-root directory — an I/O action — before the
validation check runs, so rejection does not happen before all I/O. -/
theorem mkdir_occurs_before_validation :
    validSessionId "../evil" = false ∧
    saveTrace "../evil" = ([FsEvent.mkdirSessionsRoot], false) ∧
    (saveTrace "../evil").1 ≠ [] ∧
    validCheckpointId (some "../evil") 1 = false ∧
    checkpointTrace (some "../evil") 1 = ([FsEvent.mkdirCheckpointsRoot], false) ∧
    (checkpointTrace (some "../evil") 1).1 ≠ [] := by
  decide

/-- Claim C4, amended: every identifier whose derived path escapes the
storage root is rejected with an error before any file is read or written;
`SessionState.save` and `save_checkpoint` create the storage-root directory
(an identifier-independent `mkdir`, their only I/O before the check), while
`SessionState.load` performs no I/O at all before the check. -/
theorem validation_precedes_file_access (sid : String) (n : Nat)
    (hs : validSessionId sid = false) (hc : validCheckpointId (some sid) n = false) :
    saveTrace sid = ([FsEvent.mkdirSessionsRoot], false) ∧
    loadTrace sid = ([], false) ∧
    checkpointTrace (some sid) n = ([FsEvent.mkdirCheckpointsRoot], false) ∧
    (∀ p, FsEvent.writeFile p ∉ (saveTrace sid).1) ∧
    (∀ p, FsEvent.readFile p ∉ (saveTrace sid).1) ∧
    (∀ p, FsEvent.writeFile p ∉ (checkpointTrace (some sid) n).1) ∧
    (∀ p, FsEvent.readFile p ∉ (loadTrace sid).1) := by
  simp [saveTrace, loadTrace, checkpointTrace, hs, hc]

/-- Witness for the amended claim C4 at the concrete escaping identifier
`"../pwn"`. -/
theorem validation_precedes_file_access_witness :
    saveTrace "../pwn" = ([FsEvent.mkdirSessionsRoot], false) ∧
    loadTrace "../pwn" = ([], false) :=
  ⟨(validation_precedes_file_access "../pwn" 1 (by decide) (by decide)).1,
   (validation_precedes_file_access "../pwn" 1 (by decide) (by decide)).2.1⟩

/-- Claim C5: saving a session and loading it back under the same identifier
reproduces every field of the saved state exactly (the state as written,
i.e. with `updated_at` stamped by `save`), and a field absent in the stored
JSON reads back exactly as it defaults on construction — in particular a
missing update time is the empty string. -/
theorem session_save_load_roundtrip (s : SessionState) (now : String)
    (fs : SessionDir) (hv : validSessionId s.session_id = true) :
    (∃ fs', SessionState.save s now fs
        = Except.ok ({ s with updated_at := now }, fs') ∧
      SessionState.load s.session_id fs' = Except.ok { s with updated_at := now }) ∧
    (∀ j : StoredSession, j.updated_at = none → (decodeSession j).updated_at = "") ∧
    (∀ a b c d e, decodeSession ⟨a, b, c, d, e, none, none, none, none, none, none⟩
        = SessionState.make a b c d e) := by
  refine ⟨⟨writeDoc fs (sessionPath s.session_id)
      (encodeSession { s with updated_at := now }), ?_, ?_⟩, ?_, ?_⟩
  · simp [SessionState.save, hv]
  · simp [SessionState.load, hv, readDoc_writeDoc, decodeSession, encodeSession]
  · intro j h
    simp [decodeSession, h]
  · intro a b c d e
    rfl

/-- Witness for claim C5 at a concrete session. -/
theorem session_save_load_roundtrip_witness :
    ∃ fs', SessionState.save (SessionState.make "demo" "# Spec" 1 "tech" ["gpt-4o"])
        "2024-01-15T12:00:00" [] = Except.ok
        ({ SessionState.make "demo" "# Spec" 1 "tech" ["gpt-4o"] with
            updated_at := "2024-01-15T12:00:00" }, fs') ∧
      SessionState.load "demo" fs' = Except.ok
        { SessionState.make "demo" "# Spec" 1 "tech" ["gpt-4o"] with
            updated_at := "2024-01-15T12:00:00" } :=
  (session_save_load_roundtrip (SessionState.make "demo" "# Spec" 1 "tech" ["gpt-4o"])
    "2024-01-15T12:00:00" [] (by decide)).1

/-- Claim C6, counterexample: the claim quantifies over every optional
session id, but for the identifier `"../x"` — whose derived checkpoint path
escapes the checkpoints root — `save_checkpoint` writes nothing and raises a
`ValueError`, so calling it (twice or once) is not error-free and no
checkpoint file is produced. -/
theorem checkpoint_escaping_id_raises :
    save_checkpoint [] "spec v1" 1 (some "../x")
      = Except.error "Invalid session ID" ∧
    validCheckpointId (some "../x") 1 = false :=
  ⟨by rfl, by decide⟩

/-- Claim C6, amended: for every spec text, round number and optional
session id whose derived file name `{sessionId-}round-{N}.md` is a single
path component inside the checkpoints root, `save_checkpoint` writes exactly
the specification text to that file, never overwrites a different round's
checkpoint, and a second call for the same round with different content
raises no error and leaves the second call's content (last write wins). -/
theorem checkpoint_write_behavior (fs : CheckpointDir) (spec1 spec2 : String)
    (n m : Nat) (sid : Option String)
    (hn : checkpointPath sid n = CHECKPOINTS_ROOT ++ [checkpointFileName sid n])
    (hm : checkpointPath sid m = CHECKPOINTS_ROOT ++ [checkpointFileName sid m])
    (hnm : n ≠ m) :
    ∃ fs1 fs2,
      save_checkpoint fs spec1 n sid = Except.ok fs1 ∧
      readText fs1 (checkpointPath sid n) = some spec1 ∧
      readText fs1 (checkpointPath sid m) = readText fs (checkpointPath sid m) ∧
      save_checkpoint fs1 spec2 n sid = Except.ok fs2 ∧
      readText fs2 (checkpointPath sid n) = some spec2 := by
  have hv : validCheckpointId sid n = true := by
    rw [validCheckpointId, hn]
    exact isPrefixOf_append_self _ _
  have hne : checkpointPath sid m ≠ checkpointPath sid n := by
    rw [hn, hm]
    intro he
    have hc := List.append_cancel_left he
    have : checkpointFileName sid m = checkpointFileName sid n := by
      simpa using hc
    exact checkpointFileName_inj sid (Ne.symm hnm) this
  refine ⟨writeText fs (checkpointPath sid n) spec1,
    writeText (writeText fs (checkpointPath sid n) spec1) (checkpointPath sid n) spec2,
    ?_, ?_, ?_, ?_, ?_⟩
  · simp [save_checkpoint, hv]
  · exact readText_writeText _ _ _
  · exact readText_writeText_other _ _ _ _ hne
  · simp [save_checkpoint, hv]
  · exact readText_writeText _ _ _

/-- Witness for the amended claim C6 at session id `"sess"`, rounds 1 and 2,
starting from an empty checkpoints directory. -/
theorem checkpoint_write_behavior_witness :
    ∃ fs1 fs2,
      save_checkpoint [] "spec v1" 1 (some "sess") = Except.ok fs1 ∧
      readText fs1 (checkpointPath (some "sess") 1) = some "spec v1" ∧
      readText fs1 (checkpointPath (some "sess") 2)
        = readText [] (checkpointPath (some "sess") 2) ∧
      save_checkpoint fs1 "spec v2" 1 (some "sess") = Except.ok fs2 ∧
      readText fs2 (checkpointPath (some "sess") 1) = some "spec v2" :=
  checkpoint_write_behavior [] "spec v1" "spec v2" 1 2 (some "sess")
    (by decide) (by decide) (by decide)

/-- Claim C2, counterexample: on the reply used by the repository's own test
`TestCallSingleModel.test_returns_model_response_on_success` — which asserts
`result.spec == "# Revised Spec"` — the text strictly between the markers is
`"\n# Revised Spec\n"`, so the parser's `revisedSpec` is not the exact
between-marker text: it is additionally stripped of surrounding whitespace. -/
theorem spec_block_is_trimmed :
    extractSpecBlock "Here is my critique.\n\n[SPEC]\n# Revised Spec\n[/SPEC]"
      = "\n# Revised Spec\n" ∧
    parse_spec_block "Here is my critique.\n\n[SPEC]\n# Revised Spec\n[/SPEC]"
      = "# Revised Spec" ∧
    parse_spec_block "Here is my critique.\n\n[SPEC]\n# Revised Spec\n[/SPEC]"
      ≠ extractSpecBlock "Here is my critique.\n\n[SPEC]\n# Revised Spec\n[/SPEC]" := by
  decide

/-- Claim C2, amended: `revisedSpec` is the text strictly between the first
opening `[SPEC]` marker and the first following `[/SPEC]` marker, stripped
of leading and trailing whitespace; with an opening marker but no closing
marker, or with no markers at all, `revisedSpec` is the empty string, and
parsing is total (never fails). -/
theorem parse_spec_extraction (raw : String) :
    (parse_spec_block raw).data = stripChars (extractSpecBlock raw).data ∧
    (splitFirst ("[SPEC]".data) raw.data = none →
      extractSpecBlock raw = "" ∧ parse_spec_block raw = "") ∧
    (∀ pre rest, splitFirst ("[SPEC]".data) raw.data = some (pre, rest) →
      splitFirst ("[/SPEC]".data) rest = none →
      extractSpecBlock raw = "" ∧ parse_spec_block raw = "") ∧
    (∀ pre rest mid post, splitFirst ("[SPEC]".data) raw.data = some (pre, rest) →
      splitFirst ("[/SPEC]".data) rest = some (mid, post) →
      (extractSpecBlock raw).data = mid ∧ (parse_spec_block raw).data = stripChars mid) := by
  refine ⟨rfl, ?_, ?_, ?_⟩
  · intro h
    have he : extractBetween raw.data ("[SPEC]".data) ("[/SPEC]".data) = [] := by
      simp [extractBetween, h]
    exact ⟨(congrArg String.mk he).trans rfl,
      (congrArg (fun l => String.mk (stripChars l)) he).trans rfl⟩
  · intro pre rest h1 h2
    have he : extractBetween raw.data ("[SPEC]".data) ("[/SPEC]".data) = [] := by
      simp [extractBetween, h1, h2]
    exact ⟨(congrArg String.mk he).trans rfl,
      (congrArg (fun l => String.mk (stripChars l)) he).trans rfl⟩
  · intro pre rest mid post h1 h2
    have he : extractBetween raw.data ("[SPEC]".data) ("[/SPEC]".data) = mid := by
      simp [extractBetween, h1, h2]
    exact ⟨he, congrArg stripChars he⟩

/-- Witness for the amended claim C2 at a concrete reply with both markers
present. -/
theorem parse_spec_extraction_witness :
    (extractSpecBlock "ok[SPEC] X [/SPEC]rest").data = " X ".data ∧
    (parse_spec_block "ok[SPEC] X [/SPEC]rest").data = stripChars (" X ".data) :=
  (parse_spec_extraction "ok[SPEC] X [/SPEC]rest").2.2.2
    ("ok".data) (" X [/SPEC]rest".data) (" X ".data) ("rest".data)
    (by decide) (by decide)

/-- Claim C3: a backend whose completion request fails on every attempt
makes exactly 3 attempts and yields a `ModelResult` whose `error` is the
last failure's message, with `agreed=false`, empty reply fields and zero
token/cost fields, leaving the cost tracker untouched; a backend that fails
once and then succeeds yields, after 2 attempts, exactly the result a
first-attempt success with the same completion would have produced
(`error=None`, same parsed fields, same tracker update). -/
theorem retry_three_attempts (model : String) (tracker : CostTracker)
    (oracleF oracleR : Nat → Except String Completion) (msgs : Nat → String)
    (e : String) (c : Completion)
    (hf : ∀ i, oracleF i = Except.error (msgs i))
    (hr0 : oracleR 0 = Except.error e) (hr1 : oracleR 1 = Except.ok c) :
    call_single_model model oracleF tracker = (errorResponse model (msgs 2), tracker, 3) ∧
    (errorResponse model (msgs 2)).error = some (msgs 2) ∧
    (errorResponse model (msgs 2)).agreed = false ∧
    (errorResponse model (msgs 2)).reply = "" ∧
    (errorResponse model (msgs 2)).spec = "" ∧
    (errorResponse model (msgs 2)).input_tokens = 0 ∧
    (errorResponse model (msgs 2)).output_tokens = 0 ∧
    (errorResponse model (msgs 2)).cost = 0 ∧
    call_single_model model oracleR tracker
      = (successResponse model c,
         tracker.record model c.prompt_tokens c.completion_tokens, 2) ∧
    call_single_model model (fun _ => Except.ok c) tracker
      = (successResponse model c,
         tracker.record model c.prompt_tokens c.completion_tokens, 1) ∧
    (successResponse model c).error = none := by
  refine ⟨?_, rfl, rfl, rfl, rfl, rfl, rfl, rfl, ?_, ?_, rfl⟩
  · simp [call_single_model, MAX_ATTEMPTS, runAttempts, hf]
  · simp [call_single_model, MAX_ATTEMPTS, runAttempts, hr0, hr1]
  · simp [call_single_model, MAX_ATTEMPTS, runAttempts]

/-- Witness for claim C3: concrete always-failing and fail-once oracles. -/
theorem retry_three_attempts_witness :
    call_single_model "gpt-4o" (fun _ => Except.error "API timeout") CostTracker.empty
      = (errorResponse "gpt-4o" "API timeout", CostTracker.empty, 3) ∧
    call_single_model "gpt-4o"
        (fun i => if i = 0 then Except.error "Temporary error"
                  else Except.ok ⟨"[AGREE]", 100, 50⟩) CostTracker.empty
      = (successResponse "gpt-4o" ⟨"[AGREE]", 100, 50⟩,
         CostTracker.empty.record "gpt-4o" 100 50, 2) :=
  ⟨(retry_three_attempts "gpt-4o" CostTracker.empty
      (fun _ => Except.error "API timeout")
      (fun i => if i = 0 then Except.error "Temporary error"
                else Except.ok ⟨"[AGREE]", 100, 50⟩)
      (fun _ => "API timeout") "Temporary error" ⟨"[AGREE]", 100, 50⟩
      (fun _ => rfl) (by rfl) (by rfl)).1,
   (retry_three_attempts "gpt-4o" CostTracker.empty
      (fun _ => Except.error "API timeout")
      (fun i => if i = 0 then Except.error "Temporary error"
                else Except.ok ⟨"[AGREE]", 100, 50⟩)
      (fun _ => "API timeout") "Temporary error" ⟨"[AGREE]", 100, 50⟩
      (fun _ => rfl) (by rfl) (by rfl)).2.2.2.2.2.2.2.2.1⟩

/-- The `ModelResult` produced for a backend does not depend on the cost
tracker threaded through the call. -/
theorem call_single_model_fst (model : String)
    (oracle : Nat → Except String Completion) (t t' : CostTracker) :
    (call_single_model model oracle t).1 = (call_single_model model oracle t').1 := by
  simp only [call_single_model]
  cases (runAttempts oracle 0 MAX_ATTEMPTS).2 <;> rfl

/-- The `model` field of a result always names the requested backend. -/
theorem call_single_model_model (model : String)
    (oracle : Nat → Except String Completion) (t : CostTracker) :
    ((call_single_model model oracle t).1).model = model := by
  simp only [call_single_model]
  cases (runAttempts oracle 0 MAX_ATTEMPTS).2 <;> rfl

/-- The dispatch fold accumulates, in input order, each backend's own
result, independently of the tracker state at which it runs. -/
theorem dispatch_foldl (oracle : String → Nat → Except String Completion) :
    ∀ (ms : List String) (acc : List ModelResponse) (t : CostTracker),
      (ms.foldl
        (fun acc m =>
          let r := call_single_model m (oracle m) acc.2
          (acc.1 ++ [r.1], r.2.1))
        (acc, t)).1
      = acc ++ ms.map (fun m => (call_single_model m (oracle m) CostTracker.empty).1) := by
  intro ms
  induction ms with
  | nil => intro acc t; simp
  | cons m ms ih =>
    intro acc t
    simp only [List.foldl_cons, List.map_cons]
    rw [ih]
    rw [call_single_model_fst m (oracle m) t CostTracker.empty]
    simp

/-- Claim C1: dispatching a non-empty list of `k` backends returns exactly
`k` results, in the same order as the input list, the `i`-th being computed
from the `i`-th backend's own oracle alone — so one backend's failure never
removes or reorders another backend's result. -/
theorem parallel_dispatch_order (models : List String)
    (oracle : String → Nat → Except String Completion) (tracker : CostTracker)
    (h : models ≠ []) :
    ∃ rs t', call_models_parallel models oracle tracker = Except.ok (rs, t') ∧
      rs = models.map (fun m => (call_single_model m (oracle m) CostTracker.empty).1) ∧
      rs.length = models.length ∧
      ∀ m, ((call_single_model m (oracle m) CostTracker.empty).1).model = m := by
  cases models with
  | nil => exact absurd rfl h
  | cons m ms =>
    refine ⟨((m :: ms).foldl
        (fun acc x =>
          let r := call_single_model x (oracle x) acc.2
          (acc.1 ++ [r.1], r.2.1))
        ([], tracker)).1,
      ((m :: ms).foldl
        (fun acc x =>
          let r := call_single_model x (oracle x) acc.2
          (acc.1 ++ [r.1], r.2.1))
        ([], tracker)).2, rfl, ?_, ?_, ?_⟩
    · rw [dispatch_foldl]
      simp
    · rw [dispatch_foldl]
      simp
    · intro x
      exact call_single_model_model x (oracle x) CostTracker.empty

/-- Witness for claim C1 at two concrete backends, one failing and one
succeeding (the repository's `test_one_model_error_others_succeed`
scenario). -/
theorem parallel_dispatch_order_witness :
    ∃ rs t', call_models_parallel ["model-fail", "model-succeed"]
        (fun m _ => if m = "model-fail" then Except.error "API error"
                    else Except.ok ⟨"[AGREE]", 100, 50⟩)
        CostTracker.empty = Except.ok (rs, t') ∧
      rs = (["model-fail", "model-succeed"] : List String).map
        (fun m => (call_single_model m
          ((fun m _ => if m = "model-fail" then Except.error "API error"
                       else Except.ok ⟨"[AGREE]", 100, 50⟩) m)
          CostTracker.empty).1) ∧
      rs.length = (["model-fail", "model-succeed"] : List String).length ∧
      ∀ m, ((call_single_model m
          ((fun m _ => if m = "model-fail" then Except.error "API error"
                       else Except.ok ⟨"[AGREE]", 100, 50⟩) m)
          CostTracker.empty).1).model = m :=
  parallel_dispatch_order ["model-fail", "model-succeed"]
    (fun m _ => if m = "model-fail" then Except.error "API error"
                else Except.ok ⟨"[AGREE]", 100, 50⟩)
    CostTracker.empty (by decide)

/-- Claim C8: two successful calls against the same backend, each recording
usage (1000 input, 500 output), leave the tracker with total input tokens
2000 and total output tokens 1000, the per-backend totals for that backend
equal to the sum of its own two calls, and each call's usage added exactly
once. -/
theorem cost_accumulates_additively (model : String) (c1 c2 : Completion)
    (o1 o2 : Nat → Except String Completion)
    (h1 : o1 0 = Except.ok c1) (h2 : o2 0 = Except.ok c2)
    (hp1 : c1.prompt_tokens = 1000) (hc1 : c1.completion_tokens = 500)
    (hp2 : c2.prompt_tokens = 1000) (hc2 : c2.completion_tokens = 500) :
    ((call_single_model model o2
        ((call_single_model model o1 CostTracker.empty).2.1)).2.1).total_input_tokens
      = 2000 ∧
    ((call_single_model model o2
        ((call_single_model model o1 CostTracker.empty).2.1)).2.1).total_output_tokens
      = 1000 ∧
    ((call_single_model model o2
        ((call_single_model model o1 CostTracker.empty).2.1)).2.1).usageOf model
      = some ⟨2000, 1000, usageCost model 1000 500 + usageCost model 1000 500⟩ ∧
    ((call_single_model model o2
        ((call_single_model model o1 CostTracker.empty).2.1)).2.1).total_cost
      = usageCost model 1000 500 + usageCost model 1000 500 := by
  have e1 : call_single_model model o1 CostTracker.empty
      = (successResponse model c1,
         CostTracker.empty.record model c1.prompt_tokens c1.completion_tokens, 1) := by
    simp [call_single_model, MAX_ATTEMPTS, runAttempts, h1]
  rw [e1]
  have e2 : ∀ t : CostTracker, call_single_model model o2 t
      = (successResponse model c2,
         t.record model c2.prompt_tokens c2.completion_tokens, 1) := by
    intro t
    simp [call_single_model, MAX_ATTEMPTS, runAttempts, h2]
  rw [e2]
  rw [hp1, hc1, hp2, hc2]
  refine ⟨rfl, rfl, ?_, ?_⟩
  · simp [CostTracker.record, CostTracker.empty, CostTracker.usageOf, bumpUsage,
      List.find?]
  · simp [CostTracker.record, CostTracker.empty]

/-- Witness for claim C8 at the backend `"gpt-4o"` with two first-attempt
successes of usage (1000, 500). -/
theorem cost_accumulates_additively_witness :
    ((call_single_model "gpt-4o" (fun _ => Except.ok ⟨"ok", 1000, 500⟩)
        ((call_single_model "gpt-4o" (fun _ => Except.ok ⟨"ok", 1000, 500⟩)
          CostTracker.empty).2.1)).2.1).total_input_tokens = 2000 ∧
    ((call_single_model "gpt-4o" (fun _ => Except.ok ⟨"ok", 1000, 500⟩)
        ((call_single_model "gpt-4o" (fun _ => Except.ok ⟨"ok", 1000, 500⟩)
          CostTracker.empty).2.1)).2.1).total_output_tokens = 1000 :=
  ⟨(cost_accumulates_additively "gpt-4o" ⟨"ok", 1000, 500⟩ ⟨"ok", 1000, 500⟩
      (fun _ => Except.ok ⟨"ok", 1000, 500⟩) (fun _ => Except.ok ⟨"ok", 1000, 500⟩)
      rfl rfl rfl rfl rfl rfl).1,
   (cost_accumulates_additively "gpt-4o" ⟨"ok", 1000, 500⟩ ⟨"ok", 1000, 500⟩
      (fun _ => Except.ok ⟨"ok", 1000, 500⟩) (fun _ => Except.ok ⟨"ok", 1000, 500⟩)
      rfl rfl rfl rfl rfl rfl).2.1⟩

/-- `moreRecentFirst` is transitive. -/
theorem moreRecentFirst_trans (a b c : SessionSummary) :
    moreRecentFirst a b → moreRecentFirst b c → moreRecentFirst a c :=
  fun h1 h2 => charListLe_trans _ _ _ h2 h1

/-- `moreRecentFirst` is total. -/
theorem moreRecentFirst_total (a b : SessionSummary) :
    moreRecentFirst a b || moreRecentFirst b a :=
  charListLe_total _ _

/-- Reading the summaries of a directory of readable documents yields one
summary per document. -/
theorem filterMap_readSummary_valid (docs : List ListedDoc) :
    (docs.map SessionFile.valid).filterMap readSummary = docs.map summaryOf := by
  induction docs with
  | nil => rfl
  | cons d ds ih => simp [readSummary, ih]

/-- Claim C7: `list_sessions` over readable stored sessions returns one
summary per session — carrying exactly the fields id, round, doc type and
update time — ordered by most recent update first; and a summary whose
stored record had no update time (so its key defaulted to the empty string)
never precedes a dated one: every summary after an empty-keyed one is also
empty-keyed. -/
theorem list_sessions_sorted (docs : List ListedDoc) :
    (list_sessions (docs.map SessionFile.valid)).length = docs.length ∧
    (list_sessions (docs.map SessionFile.valid)).Perm (docs.map summaryOf) ∧
    (list_sessions (docs.map SessionFile.valid)).Pairwise
      (fun a b => moreRecentFirst a b = true) ∧
    (∀ i j (hi : i < (list_sessions (docs.map SessionFile.valid)).length)
        (hj : j < (list_sessions (docs.map SessionFile.valid)).length), i < j →
      ((list_sessions (docs.map SessionFile.valid)).get ⟨i, hi⟩).updated_at = "" →
      ((list_sessions (docs.map SessionFile.valid)).get ⟨j, hj⟩).updated_at = "") := by
  have hsorted : (list_sessions (docs.map SessionFile.valid)).Pairwise
      (fun a b => moreRecentFirst a b = true) := by
    simp only [list_sessions]
    exact List.sorted_mergeSort moreRecentFirst_trans moreRecentFirst_total _
  refine ⟨?_, ?_, hsorted, ?_⟩
  · simp only [list_sessions, filterMap_readSummary_valid]
    simp
  · simp only [list_sessions, filterMap_readSummary_valid]
    exact List.mergeSort_perm _ _
  · intro i j hi hj hij hempty
    have h := List.pairwise_iff_get.mp hsorted ⟨i, hi⟩ ⟨j, hj⟩ hij
    rw [moreRecentFirst, hempty] at h
    have hnil := charListLe_nil_right _ h
    exact String.toList_inj.mp hnil

/-- Witness for claim C7 at the repository's
`test_list_sessions_sorting_with_missing_updated_at` scenario: one dated and
one undated stored session. -/
theorem list_sessions_sorted_witness :
    (list_sessions ([⟨"new-session", 1, "tech", some "2024-01-15T12:00:00"⟩,
        ⟨"old-session", 1, "tech", none⟩].map SessionFile.valid)).length = 2 ∧
    (list_sessions ([⟨"new-session", 1, "tech", some "2024-01-15T12:00:00"⟩,
        ⟨"old-session", 1, "tech", none⟩].map SessionFile.valid)).Pairwise
      (fun a b => moreRecentFirst a b = true) :=
  ⟨(list_sessions_sorted [⟨"new-session", 1, "tech", some "2024-01-15T12:00:00"⟩,
      ⟨"old-session", 1, "tech", none⟩]).1,
   (list_sessions_sorted [⟨"new-session", 1, "tech", some "2024-01-15T12:00:00"⟩,
      ⟨"old-session", 1, "tech", none⟩]).2.2.1⟩

/-- Filtering a directory down to its readable files does not change the
summaries read from it. -/
theorem filterMap_readSummary_filter (files : List SessionFile) :
    (files.filter (fun f => (readSummary f).isSome)).filterMap readSummary
      = files.filterMap readSummary := by
  induction files with
  | nil => rfl
  | cons f fs ih =>
    cases f with
    | invalid => simpa [readSummary, List.filter] using ih
    | valid d => simpa [readSummary, List.filter] using ih

/-- Claim C9: `list_sessions` is total — an unreadable file (invalid JSON or
a missing required field) is silently omitted, every readable file's summary
is still returned, and nothing else appears in the result. -/
theorem list_sessions_skips_unreadable (files : List SessionFile) :
    list_sessions files = list_sessions (files.filter (fun f => (readSummary f).isSome)) ∧
    (∀ d, SessionFile.valid d ∈ files → summaryOf d ∈ list_sessions files) ∧
    (∀ s, s ∈ list_sessions files →
      ∃ d, SessionFile.valid d ∈ files ∧ s = summaryOf d) := by
  refine ⟨?_, ?_, ?_⟩
  · simp [list_sessions, filterMap_readSummary_filter]
  · intro d hd
    simp only [list_sessions, List.mem_mergeSort]
    exact List.mem_filterMap.mpr ⟨SessionFile.valid d, hd, rfl⟩
  · intro s hs
    simp only [list_sessions, List.mem_mergeSort] at hs
    rcases List.mem_filterMap.mp hs with ⟨f, hf, hread⟩
    cases f with
    | invalid => exact absurd hread (by simp [readSummary])
    | valid d =>
      refine ⟨d, hf, ?_⟩
      simpa [readSummary] using hread.symm

/-- Witness for claim C9: a directory holding one unreadable file and one
readable session still lists exactly the readable one. -/
theorem list_sessions_skips_unreadable_witness :
    summaryOf ⟨"good", 2, "tech", some "2024-01-15T12:00:00"⟩ ∈
      list_sessions [SessionFile.invalid,
        SessionFile.valid ⟨"good", 2, "tech", some "2024-01-15T12:00:00"⟩] :=
  (list_sessions_skips_unreadable [SessionFile.invalid,
      SessionFile.valid ⟨"good", 2, "tech", some "2024-01-15T12:00:00"⟩]).2.1
    ⟨"good", 2, "tech", some "2024-01-15T12:00:00"⟩ (by simp)

/-- A match returned by the inner scan really is a matching update of the
batch. -/
theorem firstMatch_some (chat : String) :
    ∀ (us : List TgUpdate) (t : String), firstMatch chat us = some t →
      ∃ u ∈ us, u.chat_id = chat ∧ u.text ≠ "" ∧ u.text = t := by
  intro us
  induction us with
  | nil => intro t h; exact absurd h (by simp [firstMatch])
  | cons u rest ih =>
    intro t h
    simp only [firstMatch] at h
    by_cases hc : u.chat_id = chat ∧ u.text ≠ ""
    · rw [if_pos hc] at h
      exact ⟨u, List.mem_cons_self u rest, hc.1, hc.2, Option.some.inj h⟩
    · rw [if_neg hc] at h
      rcases ih t h with ⟨v, hv, hmatch⟩
      exact ⟨v, List.mem_cons_of_mem u hv, hmatch⟩

/-- A batch with no matching update yields no match. -/
theorem firstMatch_none (chat : String) :
    ∀ us : List TgUpdate, (∀ u ∈ us, u.chat_id = chat → u.text = "") →
      firstMatch chat us = none := by
  intro us
  induction us with
  | nil => intro _; rfl
  | cons u rest ih =>
    intro h
    simp only [firstMatch]
    rw [if_neg]
    · exact ih fun v hv => h v (List.mem_cons_of_mem u hv)
    · rintro ⟨hc, ht⟩
      exact ht (h u (List.mem_cons_self u rest) hc)

/-- Claim C10: `poll_for_reply` returns a text only if some successfully
fetched update carries it from the configured chat with non-empty text;
updates from other chats or with empty text are never returned, and when no
matching update arrives before the timeout the result is `None` (the
function is total — fetch errors are swallowed and retried). -/
theorem poll_for_reply_filters (chat : String)
    (polls : List (Except Unit (List TgUpdate))) :
    (∀ t, poll_for_reply chat polls = some t →
      ∃ us, Except.ok us ∈ polls ∧
        ∃ u ∈ us, u.chat_id = chat ∧ u.text ≠ "" ∧ u.text = t) ∧
    ((∀ us, Except.ok us ∈ polls → ∀ u ∈ us, u.chat_id = chat → u.text = "") →
      poll_for_reply chat polls = none) := by
  induction polls with
  | nil => exact ⟨fun t h => absurd h (by simp [poll_for_reply]), fun _ => rfl⟩
  | cons b rest ih =>
    constructor
    · intro t h
      cases b with
      | error e =>
        rcases ih.1 t h with ⟨us, hus, hmatch⟩
        exact ⟨us, List.mem_cons_of_mem _ hus, hmatch⟩
      | ok us =>
        simp only [poll_for_reply] at h
        cases hm : firstMatch chat us with
        | some t' =>
          rw [hm] at h
          rcases firstMatch_some chat us t' hm with ⟨u, hu, hc, ht, hteq⟩
          exact ⟨us, List.mem_cons_self _ rest,
            u, hu, hc, ht, hteq.trans (Option.some.inj h)⟩
        | none =>
          rw [hm] at h
          rcases ih.1 t h with ⟨vs, hvs, hmatch⟩
          exact ⟨vs, List.mem_cons_of_mem _ hvs, hmatch⟩
    · intro hnone
      cases b with
      | error e =>
        exact ih.2 fun us hus => hnone us (List.mem_cons_of_mem _ hus)
      | ok us =>
        simp only [poll_for_reply]
        rw [firstMatch_none chat us (hnone us (List.mem_cons_self _ rest))]
        exact ih.2 fun vs hvs => hnone vs (List.mem_cons_of_mem _ hvs)

/-- Witness for claim C10 at the repository's
`test_ignores_messages_from_other_chats` scenario: an update from chat
`"999"` while polling chat `"123"`, then an empty batch, yields `None`. -/
theorem poll_for_reply_filters_witness :
    poll_for_reply "123"
      [Except.ok [⟨100, "999", "Other chat"⟩], Except.ok []] = none :=
  (poll_for_reply_filters "123"
      [Except.ok [⟨100, "999", "Other chat"⟩], Except.ok []]).2
    (by
      intro us hus u hu hchat
      simp only [List.mem_cons, List.not_mem_nil, or_false] at hus
      rcases hus with h | h
      · rw [Except.ok.injEq] at h
        subst h
        simp only [List.mem_singleton] at hu
        subst hu
        exact absurd hchat (by decide)
      · rw [Except.ok.injEq] at h
        subst h
        simp at hu)
